import Mathlib

/-!
Shallow embedding of the fetch/cache engine of `src/content_fetcher.py`
(class `ContentFetcher`), together with theorems checking the natural
language specification against it.

Modelling conventions:
* Python strings are Lean `String`s; `dict`s keyed by strings are
  association lists (`List (String × _)`); reachable states only ever
  hold one binding per key, and the `del` operation removes every
  binding of its key, which coincides with dict semantics there.
* Timestamps are `Nat`.  All reads of `time.time()` performed inside a
  single call of `_fetch_with_session` (and the `_handle_error_and_cache`
  call it makes) are modelled as the same instant `now`, which is passed
  to the step function.
* The network is an oracle value passed to the step function: the
  outcome `session.get` would produce for this call.  A statement that
  holds for every oracle value expresses that the network is not
  contacted (the step's behaviour does not depend on it).
* `BeautifulSoup(s, 'html.parser')` is an external library call; it is
  modelled as an injective constructor `HtmlDoc.mk` on the markup
  string.  `json`-decodable Python values are the inductive `PyVal`;
  `response.json()` is modelled by the oracle's `jsonBody` field
  (`none` meaning the decode raises).
* The backing cache file is modelled by the `file` component of the
  engine state, holding the last serialized pair of tables;
  `save_cache_to_file` overwrites it with the current tables.
-/

/-! ## Python tuple ordering on `(str, str)` pairs

`sorted(params.items())` sorts the dict items by Python tuple
comparison: lexicographic on the pair, strings compared pointwise by
unicode code point. -/

/-- Lexicographic `≤` on lists of naturals (Python string comparison on
code points). -/
def lexLe : List Nat → List Nat → Bool
  | [], _ => true
  | _ :: _, [] => false
  | a :: as, b :: bs => if a < b then true else if b < a then false else lexLe as bs

/-- Code-point sequence of a string. -/
def strCode (s : String) : List Nat := s.data.map Char.toNat

/-- Python `<=` on strings. -/
def strLe (s t : String) : Bool := lexLe (strCode s) (strCode t)

/-- Python `<=` on `(str, str)` tuples: lexicographic on the pair. -/
def pairLe (a b : String × String) : Bool :=
  if a.1 = b.1 then strLe a.2 b.2 else strLe a.1 b.1

/-- `pairLe` as a decidable relation, for use with `List.insertionSort`. -/
def pairRel (a b : String × String) : Prop := pairLe a b = true

instance : DecidableRel pairRel := fun a b => by unfold pairRel; infer_instance

/-- `sorted(params.items())`: the items of the parameter mapping in
Python sorted order. -/
def sortedItems (params : List (String × String)) : List (String × String) :=
  List.insertionSort pairRel params

/-! ## `json.dumps` of the cache-key tuple

`cache_key = json.dumps((url, sorted(params.items())))` (line 59 of
`content_fetcher.py`).  `json.dumps` with default options separates
elements by `", "` and escapes strings with `ensure_ascii=True`:
`\` and `"` get a backslash escape, the control characters BS, TAB, LF,
FF, CR get their two-character escapes, all other characters outside
printable ASCII (below 0x20 or above 0x7E) become `\uXXXX` (a surrogate
pair for code points above 0xFFFF). -/

/-- Lowercase hex digit for `n < 16`. -/
def hexDigitChar (n : Nat) : Char :=
  if n < 10 then Char.ofNat (48 + n) else Char.ofNat (87 + n)

/-- Four lowercase hex digits of `n < 0x10000`. -/
def hex4 (n : Nat) : List Char :=
  [hexDigitChar (n / 4096 % 16), hexDigitChar (n / 256 % 16),
   hexDigitChar (n / 16 % 16), hexDigitChar (n % 16)]

/-- The characters `json.dumps` emits for one character of a string
(`ensure_ascii=True`). -/
def escapeChar (c : Char) : List Char :=
  if c = '\\' then ['\\', '\\']
  else if c = '"' then ['\\', '"']
  else if c = Char.ofNat 8 then ['\\', 'b']
  else if c = Char.ofNat 9 then ['\\', 't']
  else if c = Char.ofNat 10 then ['\\', 'n']
  else if c = Char.ofNat 12 then ['\\', 'f']
  else if c = Char.ofNat 13 then ['\\', 'r']
  else if c.toNat < 32 then '\\' :: 'u' :: hex4 c.toNat
  else if c.toNat ≤ 126 then [c]
  else if c.toNat ≤ 65535 then '\\' :: 'u' :: hex4 c.toNat
  else
    '\\' :: 'u' :: hex4 (55296 + (c.toNat - 65536) / 1024) ++
      '\\' :: 'u' :: hex4 (56320 + (c.toNat - 65536) % 1024)

/-- Escape each character in turn. -/
def escapeList : List Char → List Char
  | [] => []
  | c :: cs => escapeChar c ++ escapeList cs

/-- A JSON string literal: `"` escaped-characters `"`. -/
def jsonStringChars (s : String) : List Char :=
  '"' :: escapeList s.data ++ ['"']

/-- JSON serialization of one `(key, value)` item: `["k", "v"]`. -/
def pairChars (p : String × String) : List Char :=
  '[' :: jsonStringChars p.1 ++ ',' :: ' ' :: jsonStringChars p.2 ++ [']']

/-- The items of the sorted list, separated by `", "`. -/
def itemsChars : List (String × String) → List Char
  | [] => []
  | [p] => pairChars p
  | p :: q :: ps => pairChars p ++ ',' :: ' ' :: itemsChars (q :: ps)

/-- Character sequence of `json.dumps((url, sorted(params.items())))`:
`["url", [["k1", "v1"], ...]]`. -/
def cacheKeyChars (url : String) (params : List (String × String)) : List Char :=
  '[' :: jsonStringChars url ++ ',' :: ' ' :: '[' :: itemsChars (sortedItems params) ++ [']', ']']

/-- The cache key of line 59:
`json.dumps((url, sorted(params.items())))`. -/
def cacheKey (url : String) (params : List (String × String)) : String :=
  ⟨cacheKeyChars url params⟩

/-! ## Substring test (Python `in` on strings) -/

/-- Does `hay` start with `pat`? -/
def leadsWith : List Char → List Char → Bool
  | [], _ => true
  | _ :: _, [] => false
  | a :: as, b :: bs => a = b && leadsWith as bs

/-- Does `pat` occur as a contiguous subsequence of `hay`? -/
def containsSeq (pat : List Char) : List Char → Bool
  | [] => leadsWith pat []
  | c :: cs => leadsWith pat (c :: cs) || containsSeq pat cs

/-- Python `pat in hay` on strings. -/
def strContainsSub (hay pat : String) : Bool := containsSeq pat.data hay.data

/-- ASCII lowercasing of one character.  `content_type.lower()` is
Python's full-unicode lowering, but `Content-Type` header values are
ASCII, where the two coincide. -/
def lowerChar (c : Char) : Char :=
  if 65 ≤ c.toNat ∧ c.toNat ≤ 90 then Char.ofNat (c.toNat + 32) else c

/-- `s.lower()` on ASCII strings. -/
def strToLower (s : String) : String := ⟨s.data.map lowerChar⟩

/-! ## Python values, parsed content, cache entries, engine state -/

/-- JSON-decodable Python values (`response.json()` results; also what
the success cache stores — an HTML body is stored as a `str`). -/
inductive PyVal where
  | null
  | bool (b : Bool)
  | int (n : Int)
  | str (s : String)
  | list (xs : List PyVal)
  | dict (fields : List (String × PyVal))

/-- A BeautifulSoup document tree; the external parser is modelled as an
injective function of the markup source. -/
structure HtmlDoc where
  markup : String
deriving DecidableEq

/-- `BeautifulSoup(s, 'html.parser')`. -/
def bsParse (s : String) : HtmlDoc := ⟨s⟩

/-- The `Content` union returned by the fetcher: a document tree or a
decoded structured value. -/
inductive Content where
  | doc (d : HtmlDoc)
  | structured (v : PyVal)

/-- Line 65: `bs(entry['data'], 'html.parser') if isinstance(entry['data'], str)
else entry['data']` — a stored string is re-parsed as markup, any other
stored value is returned as is. -/
def renderStored : PyVal → Content
  | .str s => .doc (bsParse s)
  | v => .structured v

/-- An entry of `successful_cache`. -/
structure SuccessEntry where
  url : String
  params : List (String × String)
  first_request : Nat
  last_request : Nat
  data : PyVal

/-- An entry of `bad_request_cache`. -/
structure FailureEntry where
  url : String
  params : List (String × String)
  first_request : Nat
  last_request : Nat
  error : String

/-- The mutable state of one `ContentFetcher` instance: the two
in-memory tables and the contents of the backing cache file
(modelled as the pair of tables it last stored). -/
structure EngineState where
  successful_cache : List (String × SuccessEntry)
  bad_request_cache : List (String × FailureEntry)
  file : List (String × SuccessEntry) × List (String × FailureEntry)

/-! ## Dict operations on association lists -/

/-- `d[k]` / `k in d`: find the value bound to `k`. -/
def alookup {α : Type} (k : String) : List (String × α) → Option α
  | [] => none
  | (k', v) :: rest => if k' = k then some v else alookup k rest

/-- `d[k] = v`: rebind `k` in place, or append a new binding. -/
def aupdate {α : Type} (k : String) (v : α) : List (String × α) → List (String × α)
  | [] => [(k, v)]
  | (k', v') :: rest => if k' = k then (k, v) :: rest else (k', v') :: aupdate k v rest

/-- `del d[k]`: drop every binding of `k` (reachable states bind a key
at most once, so this is dict deletion). -/
def aremove {α : Type} (k : String) (l : List (String × α)) : List (String × α) :=
  l.filter (fun p => !(p.1 = k : Bool))

/-! ## Network oracle -/

/-- The observable parts of an `aiohttp` response used by the code:
status, `Content-Type` header (`''` when absent), `response.text()`,
and `response.json()` (`none` when decoding raises). -/
structure HttpResponse where
  status : Nat
  contentType : String
  body : String
  jsonBody : Option PyVal

/-- What `session.get` produces for this call: a response, an
`aiohttp.ClientError` while connecting (carrying its `str`), or an
`asyncio.TimeoutError`. -/
inductive NetworkOutcome where
  | resp (r : HttpResponse)
  | clientError (msg : String)
  | timeout

/-- `str()` of the `aiohttp.ClientResponseError` that
`raise_for_status()` raises for a status of 400 or above (the wording
of the library message is abstracted; only the fact that it is a
`ClientError` matters to the code). -/
def statusErrorText (status : Nat) : String :=
  "HTTP status " ++ toString status

/-- `str()` of the exception `response.json()` raises on an undecodable
body (abstracted wording). -/
def jsonDecodeErrorText : String := "JSON decode error"

/-! ## The engine step: `_fetch_with_session` -/

/-- `save_cache_to_file` (lines 164-176): overwrite the backing file
with both tables in full. -/
def save_cache_to_file (st : EngineState) : EngineState :=
  { st with file := (st.successful_cache, st.bad_request_cache) }

/-- `_handle_error_and_cache` (lines 124-146).  Returns
`(some error_message, st')` when it raises `ValueError(error_message)`
after recording the failure and persisting, and `(none, st')` when
`ignore_bad_request` suppresses everything but a log line. -/
def handle_error_and_cache (st : EngineState) (cache_key url : String)
    (params : List (String × String)) (error_message : String)
    (ignore_bad_request : Bool) (now : Nat) : Option String × EngineState :=
  if !ignore_bad_request then
    let first :=
      match alookup cache_key st.bad_request_cache with
      | some e => e.first_request
      | none => now
    let entry : FailureEntry :=
      { url := url, params := params, first_request := first,
        last_request := now, error := error_message }
    let st' := save_cache_to_file
      { st with bad_request_cache := aupdate cache_key entry st.bad_request_cache }
    (some error_message, st')
  else
    (none, st)

/-- How the `try` block of `_fetch_with_session` (lines 67-110) can end:
a `return` of content, falling off the end (Python returns `None`), or
an escaping `aiohttp.ClientError`, `asyncio.TimeoutError`, or other
exception, each carrying the state as mutated so far. -/
inductive TryOutcome where
  | ret (c : Content) (st : EngineState)
  | fellThrough (st : EngineState)
  | clientErr (msg : String) (st : EngineState)
  | timedOut (st : EngineState)
  | otherExn (msg : String) (st : EngineState)

/-- The network-facing part of the `try` block (lines 75-110): issue the
GET, `raise_for_status`, and dispatch on the declared content type. -/
def try_net (st : EngineState) (cache_key url : String)
    (params : List (String × String)) (ignore_bad_request : Bool) (now : Nat)
    (net : NetworkOutcome) : TryOutcome :=
  match net with
  | .clientError m => .clientErr m st
  | .timeout => .timedOut st
  | .resp r =>
    if 400 ≤ r.status then
      -- line 76: response.raise_for_status()
      .clientErr (statusErrorText r.status) st
    else if strContainsSub (strToLower r.contentType) "text/html" then
      if r.body ≠ "" then
        -- lines 80-90
        let entry : SuccessEntry :=
          { url := url, params := params, first_request := now,
            last_request := now, data := .str r.body }
        let st₁ := { st with successful_cache :=
          (aupdate cache_key entry st.successful_cache) }
        let st₂ := { st₁ with bad_request_cache :=
          (aremove cache_key st₁.bad_request_cache) }
        .ret (.doc (bsParse r.body)) (save_cache_to_file st₂)
      else
        -- lines 91-94
        match handle_error_and_cache st cache_key url params
            ("Empty HTML content received from " ++ url) ignore_bad_request now with
        | (some m, st₁) => .otherExn m st₁
        | (none, st₁) => .fellThrough st₁
    else if strContainsSub (strToLower r.contentType) "application/json" then
      match r.jsonBody with
      | none => .otherExn jsonDecodeErrorText st
      | some j =>
        -- lines 96-105
        let entry : SuccessEntry :=
          { url := url, params := params, first_request := now,
            last_request := now, data := j }
        let st₁ := { st with successful_cache :=
          (aupdate cache_key entry st.successful_cache) }
        let st₂ := { st₁ with bad_request_cache :=
          (aremove cache_key st₁.bad_request_cache) }
        .ret (.structured j) (save_cache_to_file st₂)
    else
      -- lines 106-110
      match handle_error_and_cache st cache_key url params
          ("Unexpected content type '" ++ r.contentType ++ "' received from " ++ url)
          ignore_bad_request now with
      | (some m, st₁) => .otherExn m st₁
      | (none, st₁) => .fellThrough st₁

/-- The `try` block of `_fetch_with_session` (lines 67-110).  Note that
the `ValueError`s raised at lines 73, 93 and 108 are raised inside the
`try`, so they surface as `otherExn` (to be caught by the
`except Exception` arm), not as a direct raise to the caller. -/
def try_fetch (st : EngineState) (cache_key url : String)
    (params : List (String × String)) (ignore_bad_request : Bool) (now : Nat)
    (net : NetworkOutcome) : TryOutcome :=
  match (if ignore_bad_request then none else alookup cache_key st.bad_request_cache) with
  | some entry =>
    -- lines 69-73: refresh last_request, then raise
    let st₁ := { st with bad_request_cache :=
      (aupdate cache_key { entry with last_request := now } st.bad_request_cache) }
    .otherExn ("Request was previously marked as bad: " ++ cache_key) st₁
  | none => try_net st cache_key url params ignore_bad_request now net

/-- The observable outcome of one `_fetch_with_session` call: returned
content, Python's implicit `None`, or a propagated `ValueError`. -/
inductive FetchResult where
  | content (c : Content)
  | noneResult
  | raised (msg : String)

/-- Glue for the `raise ValueError` at line 144 when it happens inside
an `except` arm: `some` becomes a propagated raise, `none` lets the
function fall through to `None`. -/
def afterHandle : Option String × EngineState → FetchResult × EngineState
  | (some m, st) => (.raised m, st)
  | (none, st) => (.noneResult, st)

/-- The three `except` arms of `_fetch_with_session` (lines 111-122),
applied to how the `try` block ended. -/
def except_dispatch (cache_key url : String) (params : List (String × String))
    (ignore_bad_request : Bool) (now : Nat) : TryOutcome → FetchResult × EngineState
  | .ret c st₁ => (.content c, st₁)
  | .fellThrough st₁ => (.noneResult, st₁)
  | .clientErr m st₁ =>
    afterHandle (handle_error_and_cache st₁ cache_key url params
      ("An error occurred during HTTP request: " ++ m ++ " received from " ++ url)
      ignore_bad_request now)
  | .timedOut st₁ =>
    afterHandle (handle_error_and_cache st₁ cache_key url params
      ("Request timed out for URL: " ++ url) ignore_bad_request now)
  | .otherExn m st₁ =>
    afterHandle (handle_error_and_cache st₁ cache_key url params
      ("An unexpected error occurred: " ++ m ++ " received from " ++ url)
      ignore_bad_request now)

/-- `_fetch_with_session` (lines 47-122): the success-cache read, the
`try` block, and the three `except` arms. -/
def fetch_with_session (st : EngineState) (url : String)
    (params : List (String × String)) (force_refresh ignore_bad_request : Bool)
    (now : Nat) (net : NetworkOutcome) : FetchResult × EngineState :=
  let cache_key := cacheKey url params
  match (if force_refresh then none else alookup cache_key st.successful_cache) with
  | some entry =>
    -- lines 62-65: refresh last_request in place and return the stored data
    let entry' := { entry with last_request := now }
    let st₁ := { st with successful_cache := aupdate cache_key entry' st.successful_cache }
    (.content (renderStored entry'.data), st₁)
  | none =>
    except_dispatch cache_key url params ignore_bad_request now
      (try_fetch st cache_key url params ignore_bad_request now net)

/-! ## Association-list lemmas -/

/-- Number of bindings of `k` (at most one in any reachable state). -/
def countKey {α : Type} (k : String) (l : List (String × α)) : Nat :=
  (l.filter (fun p => (p.1 = k : Bool))).length

theorem alookup_aupdate_self {α : Type} (k : String) (v : α) (l : List (String × α)) :
    alookup k (aupdate k v l) = some v := by
  induction l with
  | nil => simp [alookup, aupdate]
  | cons p rest ih =>
    obtain ⟨k', v'⟩ := p
    by_cases h : k' = k
    · simp [alookup, aupdate, h]
    · simp [alookup, aupdate, h, ih]

theorem alookup_aremove_self {α : Type} (k : String) (l : List (String × α)) :
    alookup k (aremove k l) = none := by
  induction l with
  | nil => simp [alookup, aremove]
  | cons p rest ih =>
    obtain ⟨k', v'⟩ := p
    by_cases h : k' = k
    · simpa [aremove, h] using ih
    · simpa [aremove, alookup, h] using ih

theorem countKey_eq_zero {α : Type} (k : String) (l : List (String × α))
    (h : alookup k l = none) : countKey k l = 0 := by
  induction l with
  | nil => simp [countKey]
  | cons p rest ih =>
    obtain ⟨k', v'⟩ := p
    by_cases hk : k' = k
    · simp [alookup, hk] at h
    · simp [alookup, hk] at h
      simpa [countKey, hk] using ih h

theorem countKey_aupdate_of_none {α : Type} (k : String) (v : α) (l : List (String × α))
    (h : alookup k l = none) : countKey k (aupdate k v l) = 1 := by
  induction l with
  | nil => simp [countKey, aupdate]
  | cons p rest ih =>
    obtain ⟨k', v'⟩ := p
    by_cases hk : k' = k
    · simp [alookup, hk] at h
    · simp [alookup, hk] at h
      simpa [countKey, aupdate, hk] using ih h

/-! ## The sorted order is a linear order, so sorting is
permutation-invariant -/

theorem lexLe_total : ∀ x y : List Nat, lexLe x y = true ∨ lexLe y x = true := by
  intro x
  induction x with
  | nil => intro y; left; rfl
  | cons a as ih =>
    intro y
    cases y with
    | nil => right; rfl
    | cons b bs =>
      by_cases h1 : a < b
      · left; simp [lexLe, h1]
      · by_cases h2 : b < a
        · right; simp [lexLe, h2]
        · have hab : a = b := Nat.le_antisymm (Nat.not_lt.mp h2) (Nat.not_lt.mp h1)
          subst hab
          rcases ih bs with h | h
          · left; simpa [lexLe] using h
          · right; simpa [lexLe] using h

theorem lexLe_antisymm : ∀ x y : List Nat,
    lexLe x y = true → lexLe y x = true → x = y := by
  intro x
  induction x with
  | nil =>
    intro y hxy hyx
    cases y with
    | nil => rfl
    | cons b bs => simp [lexLe] at hyx
  | cons a as ih =>
    intro y hxy hyx
    cases y with
    | nil => simp [lexLe] at hxy
    | cons b bs =>
      by_cases h1 : a < b
      · simp [lexLe, h1, Nat.not_lt.mpr (Nat.le_of_lt h1), Nat.lt_irrefl] at hyx
      · by_cases h2 : b < a
        · simp [lexLe, h1, h2] at hxy
        · have hab : a = b := Nat.le_antisymm (Nat.not_lt.mp h2) (Nat.not_lt.mp h1)
          subst hab
          simp only [lexLe, if_neg h1, if_neg h1] at hxy hyx
          rw [ih bs hxy hyx]

theorem lexLe_trans : ∀ x y z : List Nat,
    lexLe x y = true → lexLe y z = true → lexLe x z = true := by
  intro x
  induction x with
  | nil => intro y z _ _; rfl
  | cons a as ih =>
    intro y z hxy hyz
    cases y with
    | nil => simp [lexLe] at hxy
    | cons b bs =>
      cases z with
      | nil => simp [lexLe] at hyz
      | cons c cs =>
        by_cases h1 : a < b
        · by_cases h2 : b < c
          · simp [lexLe, Nat.lt_trans h1 h2]
          · by_cases h3 : c < b
            · simp [lexLe, h2, h3] at hyz
            · have hbc : b = c := Nat.le_antisymm (Nat.not_lt.mp h3) (Nat.not_lt.mp h2)
              subst hbc
              simp [lexLe, h1]
        · by_cases h4 : b < a
          · simp [lexLe, h1, h4] at hxy
          · have hab : a = b := Nat.le_antisymm (Nat.not_lt.mp h4) (Nat.not_lt.mp h1)
            subst hab
            simp only [lexLe, if_neg h1] at hxy
            by_cases h2 : a < c
            · simp [lexLe, h2]
            · by_cases h3 : c < a
              · simp [lexLe, h2, h3] at hyz
              · have hac : a = c := Nat.le_antisymm (Nat.not_lt.mp h3) (Nat.not_lt.mp h2)
                subst hac
                simp only [lexLe, if_neg h2] at hyz ⊢
                exact ih bs cs hxy hyz

theorem strCode_inj (s t : String) (h : strCode s = strCode t) : s = t := by
  have hd : s.data = t.data := by
    have : ∀ (l₁ l₂ : List Char), l₁.map Char.toNat = l₂.map Char.toNat → l₁ = l₂ := by
      intro l₁
      induction l₁ with
      | nil => intro l₂ h; cases l₂ with
        | nil => rfl
        | cons c cs => simp at h
      | cons c cs ih =>
        intro l₂ h
        cases l₂ with
        | nil => simp at h
        | cons d ds =>
          simp only [List.map_cons, List.cons.injEq] at h
          have hc : c = d := by
            have := congrArg Char.ofNat h.1
            simpa [Char.ofNat_toNat] using this
          rw [hc, ih ds h.2]
    exact this s.data t.data h
  cases s; cases t
  exact congrArg String.mk hd

theorem strLe_total (s t : String) : strLe s t = true ∨ strLe t s = true :=
  lexLe_total _ _

theorem strLe_antisymm (s t : String) (h1 : strLe s t = true) (h2 : strLe t s = true) :
    s = t :=
  strCode_inj s t (lexLe_antisymm _ _ h1 h2)

theorem strLe_trans (s t u : String) (h1 : strLe s t = true) (h2 : strLe t u = true) :
    strLe s u = true :=
  lexLe_trans _ _ _ h1 h2

instance : IsTotal (String × String) pairRel := by
  constructor
  intro a b
  unfold pairRel pairLe
  by_cases h : a.1 = b.1
  · simp [h]
    exact strLe_total a.2 b.2
  · have h' : ¬ b.1 = a.1 := fun hh => h hh.symm
    simp [h, h']
    exact strLe_total a.1 b.1

instance : IsAntisymm (String × String) pairRel := by
  constructor
  intro a b hab hba
  unfold pairRel pairLe at hab hba
  by_cases h : a.1 = b.1
  · have h' : b.1 = a.1 := h.symm
    rw [if_pos h] at hab
    rw [if_pos h'] at hba
    have := strLe_antisymm _ _ hab hba
    exact Prod.ext h this
  · have h' : ¬ b.1 = a.1 := fun hh => h hh.symm
    rw [if_neg h] at hab
    rw [if_neg h'] at hba
    exact absurd (strLe_antisymm _ _ hab hba) h

instance : IsTrans (String × String) pairRel := by
  constructor
  intro a b c hab hbc
  unfold pairRel pairLe at hab hbc ⊢
  by_cases h1 : a.1 = b.1
  · rw [if_pos h1] at hab
    by_cases h2 : b.1 = c.1
    · rw [if_pos h2] at hbc
      rw [if_pos (h1.trans h2)]
      exact strLe_trans _ _ _ hab hbc
    · rw [if_neg h2] at hbc
      have : ¬ a.1 = c.1 := by rw [h1]; exact h2
      rw [if_neg this, h1]
      exact hbc
  · rw [if_neg h1] at hab
    by_cases h2 : b.1 = c.1
    · rw [← h2]
      rw [if_neg h1]
      exact hab
    · rw [if_neg h2] at hbc
      have hac : strLe a.1 c.1 = true := strLe_trans _ _ _ hab hbc
      by_cases h3 : a.1 = c.1
      · exfalso
        apply h1
        apply strLe_antisymm _ _ hab
        rw [← h3] at hbc
        exact hbc
      · rw [if_neg h3]
        exact hac

theorem sortedItems_perm (p : List (String × String)) : (sortedItems p).Perm p :=
  List.perm_insertionSort pairRel p

theorem sortedItems_sorted (p : List (String × String)) :
    List.Sorted pairRel (sortedItems p) :=
  List.sorted_insertionSort pairRel p

theorem sortedItems_eq_of_perm (p₁ p₂ : List (String × String)) (h : p₁.Perm p₂) :
    sortedItems p₁ = sortedItems p₂ :=
  List.eq_of_perm_of_sorted
    ((sortedItems_perm p₁).trans (h.trans (sortedItems_perm p₂).symm))
    (sortedItems_sorted p₁) (sortedItems_sorted p₂)

/-! ## Injectivity of the cache-key serialization

`munch` is a verification device: a single-character decoder for the
escaped form, used to show that the serialized key determines the url
and the sorted items. -/

/-- Value of a lowercase hex digit. -/
def hexVal (c : Char) : Option Nat :=
  if 48 ≤ c.toNat ∧ c.toNat ≤ 57 then some (c.toNat - 48)
  else if 97 ≤ c.toNat ∧ c.toNat ≤ 102 then some (c.toNat - 87)
  else none

/-- Combine four hex digits into a value; fails on a non-digit. -/
def hex4val (a b c d : Char) : Option Nat :=
  match hexVal a, hexVal b, hexVal c, hexVal d with
  | some x, some y, some z, some w => some (4096 * x + 256 * y + 16 * z + w)
  | _, _, _, _ => none

/-- Decode what follows a leading `\u`: one BMP code unit, or a
surrogate pair. -/
def munchU : List Char → Option (Char × List Char)
  | a :: b :: c :: d :: r2 =>
    match hex4val a b c d with
    | none => none
    | some n =>
      if 55296 ≤ n ∧ n ≤ 56319 then
        match r2 with
        | e1 :: e2 :: a2 :: b2 :: c3 :: d2 :: r3 =>
          if e1 = '\\' ∧ e2 = 'u' then
            match hex4val a2 b2 c3 d2 with
            | none => none
            | some m =>
              if 56320 ≤ m ∧ m ≤ 57343 then
                some (Char.ofNat (65536 + (n - 55296) * 1024 + (m - 56320)), r3)
              else none
          else none
        | _ => none
      else if 56320 ≤ n ∧ n ≤ 57343 then none
      else some (Char.ofNat n, r2)
  | _ => none

/-- Decode what follows a leading backslash. -/
def munchEsc (e : Char) (r' : List Char) : Option (Char × List Char) :=
  if e = '"' then some ('"', r')
  else if e = '\\' then some ('\\', r')
  else if e = 'b' then some (Char.ofNat 8, r')
  else if e = 't' then some (Char.ofNat 9, r')
  else if e = 'n' then some (Char.ofNat 10, r')
  else if e = 'f' then some (Char.ofNat 12, r')
  else if e = 'r' then some (Char.ofNat 13, r')
  else if e = 'u' then munchU r'
  else none

/-- Decode the leading escaped character of a JSON string body,
returning it and the rest.  Fails on `"` (end of literal) and on
malformed escapes (which the encoder never emits). -/
def munch : List Char → Option (Char × List Char)
  | [] => none
  | c :: r =>
    if c = '\\' then
      match r with
      | [] => none
      | e :: r' => munchEsc e r'
    else if c = '"' then none
    else some (c, r)

theorem hexVal_hexDigitChar (n : Nat) (h : n < 16) :
    hexVal (hexDigitChar n) = some n := by
  have h16 : ∀ m < 16, hexVal (hexDigitChar m) = some m := by decide
  exact h16 n h

theorem hex4val_hex4 (n : Nat) (hn : n < 65536) (r : List Char) :
    ∃ a b c d, hex4 n ++ r = a :: b :: c :: d :: r ∧ hex4val a b c d = some n := by
  refine ⟨hexDigitChar (n / 4096 % 16), hexDigitChar (n / 256 % 16),
    hexDigitChar (n / 16 % 16), hexDigitChar (n % 16), by simp [hex4], ?_⟩
  have h1 : n / 4096 % 16 < 16 := Nat.mod_lt _ (by omega)
  have h2 : n / 256 % 16 < 16 := Nat.mod_lt _ (by omega)
  have h3 : n / 16 % 16 < 16 := Nat.mod_lt _ (by omega)
  have h4 : n % 16 < 16 := Nat.mod_lt _ (by omega)
  rw [hex4val, hexVal_hexDigitChar _ h1, hexVal_hexDigitChar _ h2,
    hexVal_hexDigitChar _ h3, hexVal_hexDigitChar _ h4]
  have hsum : 4096 * (n / 4096 % 16) + 256 * (n / 256 % 16) + 16 * (n / 16 % 16) + n % 16 = n := by
    omega
  simp [hsum]

theorem char_valid_range (c : Char) :
    c.toNat < 55296 ∨ (57344 ≤ c.toNat ∧ c.toNat < 1114112) := c.valid

theorem munch_quote (r : List Char) : munch ('"' :: r) = none := by
  simp [munch]

theorem munch_plain (c : Char) (h1 : ¬ c = '\\') (h2 : ¬ c = '"') (r : List Char) :
    munch (c :: r) = some (c, r) := by
  simp [munch, h1, h2]

theorem munchEsc_u (r : List Char) : munchEsc 'u' r = munchU r := by
  simp [munchEsc]

theorem munch_backslash (e : Char) (r : List Char) :
    munch ('\\' :: (e :: r)) = munchEsc e r := by
  simp [munch]

theorem munchU_bmp (t : Nat) (ht : t < 65536) (hval : t < 55296 ∨ 57344 ≤ t)
    (r : List Char) : munchU (hex4 t ++ r) = some (Char.ofNat t, r) := by
  obtain ⟨a, b, c, d, heq, hv⟩ := hex4val_hex4 t ht r
  have hs1 : (55296 ≤ t ∧ t ≤ 56319) = False := eq_false (by omega)
  have hs2 : (56320 ≤ t ∧ t ≤ 57343) = False := eq_false (by omega)
  rw [heq]
  simp [munchU, hv, hs1, hs2]

theorem munch_unicode (t : Nat) (ht : t < 65536) (hval : t < 55296 ∨ 57344 ≤ t)
    (r : List Char) :
    munch (('\\' :: ('u' :: hex4 t)) ++ r) = some (Char.ofNat t, r) := by
  simp only [List.cons_append]
  rw [munch_backslash, munchEsc_u, munchU_bmp t ht hval r]

theorem munchU_surrogate (t : Nat) (hlo : 65536 ≤ t) (hhi : t < 1114112) (r : List Char) :
    munchU (hex4 (55296 + (t - 65536) / 1024) ++
      ('\\' :: ('u' :: (hex4 (56320 + (t - 65536) % 1024) ++ r)))) =
      some (Char.ofNat t, r) := by
  have hhibound : 55296 + (t - 65536) / 1024 < 65536 := by
    have hq : (t - 65536) / 1024 < 1024 := by omega
    omega
  have hlobound : 56320 + (t - 65536) % 1024 < 65536 := by
    have hq : (t - 65536) % 1024 < 1024 := Nat.mod_lt _ (by omega)
    omega
  obtain ⟨a, b, c, d, heq, hv⟩ := hex4val_hex4 (55296 + (t - 65536) / 1024)
    hhibound ('\\' :: ('u' :: (hex4 (56320 + (t - 65536) % 1024) ++ r)))
  obtain ⟨a2, b2, c2, d2, heq2, hv2⟩ := hex4val_hex4 (56320 + (t - 65536) % 1024)
    hlobound r
  rw [heq, heq2]
  have ht1 : 55296 + (t - 65536) / 1024 ≤ 56319 := by omega
  have ht2 : 56320 + (t - 65536) % 1024 ≤ 57343 := by omega
  have ht3 : 65536 + (t - 65536) / 1024 * 1024 + (t - 65536) % 1024 = t := by omega
  simp [munchU, hv, hv2, ht1, ht2, ht3]

theorem munch_surrogate (t : Nat) (hlo : 65536 ≤ t) (hhi : t < 1114112) (r : List Char) :
    munch (('\\' :: ('u' :: hex4 (55296 + (t - 65536) / 1024))) ++
      (('\\' :: ('u' :: hex4 (56320 + (t - 65536) % 1024))) ++ r)) =
      some (Char.ofNat t, r) := by
  simp only [List.cons_append, List.append_assoc]
  rw [munch_backslash, munchEsc_u]
  exact munchU_surrogate t hlo hhi r

theorem munch_escapeChar (c : Char) (r : List Char) :
    munch (escapeChar c ++ r) = some (c, r) := by
  by_cases h1 : c = '\\'
  · subst h1; simp [escapeChar, munch, munchEsc]
  by_cases h2 : c = '"'
  · subst h2; simp [escapeChar, munch, munchEsc]
  by_cases h3 : c = Char.ofNat 8
  · subst h3; simp [escapeChar, munch, munchEsc, h1, h2]
  by_cases h4 : c = Char.ofNat 9
  · subst h4; simp [escapeChar, munch, munchEsc, h1, h2]
  by_cases h5 : c = Char.ofNat 10
  · subst h5; simp [escapeChar, munch, munchEsc, h1, h2]
  by_cases h6 : c = Char.ofNat 12
  · subst h6; simp [escapeChar, munch, munchEsc, h1, h2]
  by_cases h7 : c = Char.ofNat 13
  · subst h7; simp [escapeChar, munch, munchEsc, h1, h2]
  by_cases h8 : c.toNat < 32
  · rw [escapeChar, if_neg h1, if_neg h2, if_neg h3, if_neg h4, if_neg h5,
      if_neg h6, if_neg h7, if_pos h8]
    have hm := munch_unicode c.toNat (by omega) (by omega) r
    simp only [List.cons_append] at hm ⊢
    rw [hm, Char.ofNat_toNat]
  by_cases h9 : c.toNat ≤ 126
  · rw [escapeChar, if_neg h1, if_neg h2, if_neg h3, if_neg h4, if_neg h5,
      if_neg h6, if_neg h7, if_neg h8, if_pos h9]
    simp only [List.cons_append, List.nil_append]
    exact munch_plain c h1 h2 r
  by_cases h10 : c.toNat ≤ 65535
  · rw [escapeChar, if_neg h1, if_neg h2, if_neg h3, if_neg h4, if_neg h5,
      if_neg h6, if_neg h7, if_neg h8, if_neg h9, if_pos h10]
    have hval := char_valid_range c
    have hm := munch_unicode c.toNat (by omega) (by omega) r
    simp only [List.cons_append] at hm ⊢
    rw [hm, Char.ofNat_toNat]
  · rw [escapeChar, if_neg h1, if_neg h2, if_neg h3, if_neg h4, if_neg h5,
      if_neg h6, if_neg h7, if_neg h8, if_neg h9, if_neg h10]
    have hval := char_valid_range c
    have hm := munch_surrogate c.toNat (by omega) (by omega) r
    simp only [List.cons_append, List.append_assoc] at hm ⊢
    rw [hm, Char.ofNat_toNat]

theorem string_data_inj (s t : String) (h : s.data = t.data) : s = t := by
  cases s; cases t
  exact congrArg String.mk h

theorem escapeList_cons_append (c : Char) (cs x : List Char) :
    escapeList (c :: cs) ++ x = escapeChar c ++ (escapeList cs ++ x) := by
  simp [escapeList, List.append_assoc]

theorem escapeList_cancel : ∀ (l₁ l₂ r₁ r₂ : List Char),
    escapeList l₁ ++ '"' :: r₁ = escapeList l₂ ++ '"' :: r₂ → l₁ = l₂ ∧ r₁ = r₂ := by
  intro l₁
  induction l₁ with
  | nil =>
    intro l₂ r₁ r₂ h
    cases l₂ with
    | nil =>
      simp only [escapeList, List.nil_append, List.cons.injEq] at h
      exact ⟨rfl, h.2⟩
    | cons c cs =>
      exfalso
      have hm := congrArg munch h
      rw [escapeList_cons_append] at hm
      simp only [escapeList, List.nil_append] at hm
      rw [munch_quote, munch_escapeChar] at hm
      exact Option.noConfusion hm
  | cons c cs ih =>
    intro l₂ r₁ r₂ h
    cases l₂ with
    | nil =>
      exfalso
      have hm := congrArg munch h
      rw [escapeList_cons_append] at hm
      simp only [escapeList, List.nil_append] at hm
      rw [munch_quote, munch_escapeChar] at hm
      exact Option.noConfusion hm
    | cons c' cs' =>
      have hm := congrArg munch h
      rw [escapeList_cons_append, escapeList_cons_append] at hm
      rw [munch_escapeChar, munch_escapeChar] at hm
      simp only [Option.some.injEq, Prod.mk.injEq] at hm
      obtain ⟨hc, htail⟩ := hm
      obtain ⟨hcs, hr⟩ := ih cs' r₁ r₂ htail
      exact ⟨by rw [hc, hcs], hr⟩

theorem jsonString_cancel (s₁ s₂ : String) (r₁ r₂ : List Char)
    (h : jsonStringChars s₁ ++ r₁ = jsonStringChars s₂ ++ r₂) : s₁ = s₂ ∧ r₁ = r₂ := by
  have h' : '"' :: (escapeList s₁.data ++ '"' :: r₁) =
      '"' :: (escapeList s₂.data ++ '"' :: r₂) := by
    simpa [jsonStringChars, List.append_assoc] using h
  injection h' with h1 h2
  obtain ⟨hd, hr⟩ := escapeList_cancel _ _ _ _ h2
  exact ⟨string_data_inj _ _ hd, hr⟩

theorem pairChars_append (p : String × String) (r : List Char) :
    pairChars p ++ r =
      '[' :: (jsonStringChars p.1 ++ (',' :: ' ' :: (jsonStringChars p.2 ++ (']' :: r)))) := by
  simp [pairChars, List.append_assoc]

theorem pairChars_cancel (p q : String × String) (r₁ r₂ : List Char)
    (h : pairChars p ++ r₁ = pairChars q ++ r₂) : p = q ∧ r₁ = r₂ := by
  rw [pairChars_append, pairChars_append] at h
  injection h with h1 h2
  obtain ⟨hk, h3⟩ := jsonString_cancel _ _ _ _ h2
  injection h3 with h4 h5
  injection h5 with h6 h7
  obtain ⟨hv, h8⟩ := jsonString_cancel _ _ _ _ h7
  injection h8 with h9 h10
  exact ⟨Prod.ext hk hv, h10⟩

/-- The continuation after one item of the items list. -/
def itemsRest : List (String × String) → List Char → List Char
  | [], r => r
  | ps@(_ :: _), r => ',' :: ' ' :: (itemsChars ps ++ r)

theorem itemsChars_cons_append (p : String × String) (ps : List (String × String))
    (r : List Char) : itemsChars (p :: ps) ++ r = pairChars p ++ itemsRest ps r := by
  cases ps with
  | nil => simp [itemsChars, itemsRest]
  | cons q qs => simp [itemsChars, itemsRest, List.append_assoc]

theorem itemsChars_head (l : List (String × String)) (r : List Char) :
    l = [] ∨ ∃ t, itemsChars l ++ r = '[' :: t := by
  cases l with
  | nil => exact Or.inl rfl
  | cons p ps =>
    right
    rw [itemsChars_cons_append, pairChars_append]
    exact ⟨_, rfl⟩

theorem itemsChars_cancel : ∀ (l₁ l₂ : List (String × String)) (r₁ r₂ : List Char),
    (∃ t₁, r₁ = ']' :: t₁) → (∃ t₂, r₂ = ']' :: t₂) →
    itemsChars l₁ ++ r₁ = itemsChars l₂ ++ r₂ → l₁ = l₂ ∧ r₁ = r₂ := by
  intro l₁
  induction l₁ with
  | nil =>
    intro l₂ r₁ r₂ hr₁ hr₂ h
    cases l₂ with
    | nil =>
      simp only [itemsChars, List.nil_append] at h
      exact ⟨rfl, h⟩
    | cons q qs =>
      exfalso
      obtain ⟨t₁, rfl⟩ := hr₁
      simp only [itemsChars, List.nil_append] at h
      rw [itemsChars_cons_append, pairChars_append] at h
      have := (List.cons.inj h).1
      exact absurd this (by decide)
  | cons p ps ih =>
    intro l₂ r₁ r₂ hr₁ hr₂ h
    cases l₂ with
    | nil =>
      exfalso
      obtain ⟨t₂, rfl⟩ := hr₂
      simp only [itemsChars, List.nil_append] at h
      rw [itemsChars_cons_append, pairChars_append] at h
      have := (List.cons.inj h).1
      exact absurd this (by decide)
    | cons q qs =>
      rw [itemsChars_cons_append, itemsChars_cons_append] at h
      obtain ⟨hpq, hrest⟩ := pairChars_cancel _ _ _ _ h
      cases ps with
      | nil =>
        cases qs with
        | nil =>
          simp only [itemsRest] at hrest
          exact ⟨by rw [hpq], hrest⟩
        | cons q2 qs2 =>
          exfalso
          obtain ⟨t₁, rfl⟩ := hr₁
          simp only [itemsRest] at hrest
          have := (List.cons.inj hrest).1
          exact absurd this (by decide)
      | cons p2 ps2 =>
        cases qs with
        | nil =>
          exfalso
          obtain ⟨t₂, rfl⟩ := hr₂
          simp only [itemsRest] at hrest
          have := (List.cons.inj hrest).1
          exact absurd this (by decide)
        | cons q2 qs2 =>
          simp only [itemsRest, List.cons.injEq, true_and] at hrest
          obtain ⟨hl, hr⟩ := ih (q2 :: qs2) r₁ r₂ hr₁ hr₂ hrest
          exact ⟨by rw [hpq, hl], hr⟩

theorem cacheKeyChars_norm (u : String) (p : List (String × String)) :
    cacheKeyChars u p =
      '[' :: (jsonStringChars u ++
        (',' :: (' ' :: ('[' :: (itemsChars (sortedItems p) ++ [']', ']']))))) := by
  simp [cacheKeyChars, List.append_assoc]

theorem cacheKeyChars_inj (u₁ u₂ : String) (p₁ p₂ : List (String × String))
    (h : cacheKeyChars u₁ p₁ = cacheKeyChars u₂ p₂) :
    u₁ = u₂ ∧ sortedItems p₁ = sortedItems p₂ := by
  rw [cacheKeyChars_norm, cacheKeyChars_norm] at h
  injection h with h1 h2
  obtain ⟨hu, h3⟩ := jsonString_cancel _ _ _ _ h2
  injection h3 with h4 h5
  injection h5 with h6 h7
  injection h7 with h8 h9
  obtain ⟨hi, _⟩ := itemsChars_cancel _ _ _ _ ⟨_, rfl⟩ ⟨_, rfl⟩ h9
  exact ⟨hu, hi⟩

/-- C5: for every url and every pair of parameter mappings with the same
entries in any insertion order, the derived cache key is the same
string; and two requests differing in the url, a parameter name, or a
parameter value derive different keys.  Formally: `cacheKey` equality
holds exactly when the urls agree and the parameter item lists are
permutations of one another (which, for the duplicate-free item lists
of Python dicts, is the same as holding equal name/value entries). -/
theorem C5_cache_key_characterization (url₁ url₂ : String)
    (params₁ params₂ : List (String × String)) :
    cacheKey url₁ params₁ = cacheKey url₂ params₂ ↔
      (url₁ = url₂ ∧ params₁.Perm params₂) := by
  constructor
  · intro h
    have hchars : cacheKeyChars url₁ params₁ = cacheKeyChars url₂ params₂ :=
      congrArg String.data h
    obtain ⟨hu, hs⟩ := cacheKeyChars_inj _ _ _ _ hchars
    refine ⟨hu, ?_⟩
    have h1 := (sortedItems_perm params₁).symm
    have h2 := sortedItems_perm params₂
    rw [hs] at h1
    exact h1.trans h2
  · rintro ⟨hu, hperm⟩
    subst hu
    have hs := sortedItems_eq_of_perm _ _ hperm
    unfold cacheKey cacheKeyChars
    rw [hs]

/-! ## Path lemmas for the engine step -/

theorem fetch_hit (st : EngineState) (url : String) (params : List (String × String))
    (ibr : Bool) (now : Nat) (net : NetworkOutcome) (e : SuccessEntry)
    (hs : alookup (cacheKey url params) st.successful_cache = some e) :
    fetch_with_session st url params false ibr now net =
      (.content (renderStored e.data),
       { st with successful_cache :=
          (aupdate (cacheKey url params) { e with last_request := now }
            st.successful_cache) }) := by
  simp [fetch_with_session, hs]

theorem fetch_miss (st : EngineState) (url : String) (params : List (String × String))
    (fr ibr : Bool) (now : Nat) (net : NetworkOutcome)
    (hmiss : fr = true ∨ alookup (cacheKey url params) st.successful_cache = none) :
    fetch_with_session st url params fr ibr now net =
      except_dispatch (cacheKey url params) url params ibr now
        (try_fetch st (cacheKey url params) url params ibr now net) := by
  rcases hmiss with h | h
  · subst h; rfl
  · cases fr
    · simp [fetch_with_session, h]
    · rfl

theorem try_fetch_prevfail (st : EngineState) (key url : String)
    (params : List (String × String)) (now : Nat) (net : NetworkOutcome)
    (f : FailureEntry) (hf : alookup key st.bad_request_cache = some f) :
    try_fetch st key url params false now net =
      .otherExn ("Request was previously marked as bad: " ++ key)
        { st with bad_request_cache :=
          (aupdate key { f with last_request := now } st.bad_request_cache) } := by
  simp [try_fetch, hf]

theorem try_fetch_nobad (st : EngineState) (key url : String)
    (params : List (String × String)) (ibr : Bool) (now : Nat) (net : NetworkOutcome)
    (h : ibr = true ∨ alookup key st.bad_request_cache = none) :
    try_fetch st key url params ibr now net =
      try_net st key url params ibr now net := by
  rcases h with h | h
  · subst h; rfl
  · cases ibr
    · simp [try_fetch, h]
    · rfl

theorem handle_error_record (st : EngineState) (key url : String)
    (params : List (String × String)) (msg : String) (now : Nat) :
    handle_error_and_cache st key url params msg false now =
      (some msg, save_cache_to_file
        { st with bad_request_cache :=
          (aupdate key
            { url := url, params := params,
              first_request :=
                (match alookup key st.bad_request_cache with
                 | some e => e.first_request
                 | none => now),
              last_request := now, error := msg } st.bad_request_cache) }) := rfl

theorem handle_error_suppress (st : EngineState) (key url : String)
    (params : List (String × String)) (msg : String) (now : Nat) :
    handle_error_and_cache st key url params msg true now = (none, st) := rfl

/-- C10: when a key is present in both tables (a state reachable only
from a hand-edited or raced cache file), a fetch with `forceRefresh`
false returns the stored success data, raises nothing, and leaves the
failure entry and the backing file untouched — the success table takes
precedence. -/
theorem C10_success_over_failure (st : EngineState) (url : String)
    (params : List (String × String)) (ibr : Bool) (now : Nat) (net : NetworkOutcome)
    (e : SuccessEntry) (f : FailureEntry)
    (hs : alookup (cacheKey url params) st.successful_cache = some e)
    (hf : alookup (cacheKey url params) st.bad_request_cache = some f) :
    fetch_with_session st url params false ibr now net =
      (.content (renderStored e.data),
        { st with successful_cache :=
            (aupdate (cacheKey url params) { e with last_request := now }
              st.successful_cache) }) ∧
    (fetch_with_session st url params false ibr now net).2.bad_request_cache =
      st.bad_request_cache ∧
    (fetch_with_session st url params false ibr now net).2.file = st.file := by
  have h := fetch_hit st url params ibr now net e hs
  exact ⟨h, by rw [h], by rw [h]⟩

theorem C10_success_over_failure_witness :
    (fetch_with_session
        ⟨[(cacheKey "u" [], ⟨"u", [], 0, 0, PyVal.str "<p>"⟩)],
         [(cacheKey "u" [], ⟨"u", [], 0, 0, "err"⟩)], ([], [])⟩
        "u" [] false false 5 .timeout).1 =
      .content (.doc (bsParse "<p>")) := by
  have h := C10_success_over_failure
    ⟨[(cacheKey "u" [], ⟨"u", [], 0, 0, PyVal.str "<p>"⟩)],
     [(cacheKey "u" [], ⟨"u", [], 0, 0, "err"⟩)], ([], [])⟩
    "u" [] false 5 .timeout ⟨"u", [], 0, 0, PyVal.str "<p>"⟩ ⟨"u", [], 0, 0, "err"⟩
    rfl rfl
  rw [h.1]
  rfl

/-- C7: with failure-cache consultation enabled, a fetch whose key has a
failure entry refreshes that entry's `last_request`, raises a
previously-marked-as-bad fault to the caller (wrapped by the generic
`except Exception` arm, which re-records the entry and persists), and
never contacts the network: the outcome is the same for every network
oracle. -/
theorem C7_previously_failed (st : EngineState) (url : String)
    (params : List (String × String)) (fr : Bool) (now : Nat)
    (net net' : NetworkOutcome) (f : FailureEntry)
    (hmiss : fr = true ∨ alookup (cacheKey url params) st.successful_cache = none)
    (hf : alookup (cacheKey url params) st.bad_request_cache = some f) :
    (fetch_with_session st url params fr false now net).1 =
      .raised ("An unexpected error occurred: " ++ ("Request was previously marked as bad: "
        ++ cacheKey url params) ++ " received from " ++ url) ∧
    alookup (cacheKey url params)
        (fetch_with_session st url params fr false now net).2.bad_request_cache =
      some { url := url, params := params, first_request := f.first_request,
             last_request := now,
             error := "An unexpected error occurred: " ++ ("Request was previously marked as bad: "
               ++ cacheKey url params) ++ " received from " ++ url } ∧
    (fetch_with_session st url params fr false now net).2.successful_cache =
      st.successful_cache ∧
    fetch_with_session st url params fr false now net =
      fetch_with_session st url params fr false now net' := by
  have run : ∀ nt : NetworkOutcome, fetch_with_session st url params fr false now nt =
      (.raised ("An unexpected error occurred: " ++ ("Request was previously marked as bad: "
          ++ cacheKey url params) ++ " received from " ++ url),
        save_cache_to_file
          { st with bad_request_cache :=
            (aupdate (cacheKey url params)
              { url := url, params := params, first_request := f.first_request,
                last_request := now,
                error := "An unexpected error occurred: " ++ ("Request was previously marked as bad: "
                  ++ cacheKey url params) ++ " received from " ++ url }
              (aupdate (cacheKey url params) { f with last_request := now }
                st.bad_request_cache)) }) := by
    intro nt
    rw [fetch_miss st url params fr false now nt hmiss,
      try_fetch_prevfail st (cacheKey url params) url params now nt f hf]
    simp [except_dispatch, handle_error_and_cache, alookup_aupdate_self, afterHandle]
  refine ⟨by rw [run net], ?_, by rw [run net]; simp [save_cache_to_file],
    (run net).trans (run net').symm⟩
  rw [run net]
  simp [save_cache_to_file, alookup_aupdate_self]

theorem C7_previously_failed_witness :
    (fetch_with_session ⟨[], [(cacheKey "u" [], ⟨"u", [], 3, 4, "boom"⟩)], ([], [])⟩
        "u" [] false false 7 .timeout).1 =
      .raised ("An unexpected error occurred: " ++ ("Request was previously marked as bad: "
        ++ cacheKey "u" []) ++ " received from " ++ "u") :=
  (C7_previously_failed ⟨[], [(cacheKey "u" [], ⟨"u", [], 3, 4, "boom"⟩)], ([], [])⟩
    "u" [] false 7 .timeout (.clientError "x") ⟨"u", [], 3, 4, "boom"⟩
    (Or.inr rfl) rfl).1

theorem suppress_no_raise (st : EngineState) (key url : String)
    (params : List (String × String)) (now : Nat) (net : NetworkOutcome) :
    (∀ m, (except_dispatch key url params true now
        (try_net st key url params true now net)).1 ≠ .raised m) ∧
    ((except_dispatch key url params true now
        (try_net st key url params true now net)).1 = .noneResult →
      (except_dispatch key url params true now
        (try_net st key url params true now net)).2 = st) := by
  cases net with
  | clientError m => simp [try_net, except_dispatch, handle_error_and_cache, afterHandle]
  | timeout => simp [try_net, except_dispatch, handle_error_and_cache, afterHandle]
  | resp r =>
    by_cases h1 : 400 ≤ r.status
    · simp [try_net, h1, except_dispatch, handle_error_and_cache, afterHandle]
    by_cases h2 : strContainsSub (strToLower r.contentType) "text/html" = true
    · by_cases h3 : r.body = ""
      · simp [try_net, h1, h2, h3, except_dispatch, handle_error_and_cache, afterHandle]
      · simp [try_net, h1, h2, h3, except_dispatch, handle_error_and_cache, afterHandle]
    by_cases h4 : strContainsSub (strToLower r.contentType) "application/json" = true
    · cases hj : r.jsonBody with
      | none => simp [try_net, h1, h2, h4, hj, except_dispatch,
          handle_error_and_cache, afterHandle]
      | some j => simp [try_net, h1, h2, h4, hj, except_dispatch,
          handle_error_and_cache, afterHandle]
    · simp [try_net, h1, h2, h4, except_dispatch, handle_error_and_cache, afterHandle]

/-- C8: with the failure cache ignored, no fault is ever raised — in
particular no previously-failed fault — and when the call yields the
absent result (a suppressed failure), the engine state is completely
unchanged: no failure entry is written or refreshed and nothing is
persisted; the error is only logged. -/
theorem C8_ignore_failure_cache (st : EngineState) (url : String)
    (params : List (String × String)) (fr : Bool) (now : Nat) (net : NetworkOutcome) :
    (∀ m, (fetch_with_session st url params fr true now net).1 ≠ .raised m) ∧
    ((fetch_with_session st url params fr true now net).1 = .noneResult →
      (fetch_with_session st url params fr true now net).2 = st) := by
  cases hls : (if fr then none else alookup (cacheKey url params) st.successful_cache) with
  | some e =>
    have hr : fetch_with_session st url params fr true now net =
        (.content (renderStored { e with last_request := now }.data),
          { st with successful_cache :=
            (aupdate (cacheKey url params) { e with last_request := now }
              st.successful_cache) }) := by
      simp [fetch_with_session, hls]
    rw [hr]
    simp
  | none =>
    have hr : fetch_with_session st url params fr true now net =
        except_dispatch (cacheKey url params) url params true now
          (try_fetch st (cacheKey url params) url params true now net) := by
      simp [fetch_with_session, hls]
    rw [hr, try_fetch_nobad st (cacheKey url params) url params true now net (Or.inl rfl)]
    exact suppress_no_raise st (cacheKey url params) url params now net

/-- C9: a fetch of a key with no prior failure entry (and no success
entry) whose network request returns a non-success HTTP status (400 or
above, e.g. 500) raises a transport fault, and the failures table
afterwards contains exactly one entry for that key, whose
`first_request` equals its `last_request` (both are the time of this
call). -/
theorem C9_http_error_records_failure (st : EngineState) (url : String)
    (params : List (String × String)) (fr : Bool) (now : Nat) (r : HttpResponse)
    (hs : alookup (cacheKey url params) st.successful_cache = none)
    (hb : alookup (cacheKey url params) st.bad_request_cache = none)
    (hst : 400 ≤ r.status) :
    (fetch_with_session st url params fr false now (.resp r)).1 =
      .raised ("An error occurred during HTTP request: " ++ statusErrorText r.status
        ++ " received from " ++ url) ∧
    alookup (cacheKey url params)
        (fetch_with_session st url params fr false now (.resp r)).2.bad_request_cache =
      some { url := url, params := params, first_request := now, last_request := now,
             error := "An error occurred during HTTP request: " ++ statusErrorText r.status
               ++ " received from " ++ url } ∧
    countKey (cacheKey url params)
        (fetch_with_session st url params fr false now (.resp r)).2.bad_request_cache = 1 := by
  have run : fetch_with_session st url params fr false now (.resp r) =
      (.raised ("An error occurred during HTTP request: " ++ statusErrorText r.status
          ++ " received from " ++ url),
        save_cache_to_file
          { st with bad_request_cache :=
            (aupdate (cacheKey url params)
              { url := url, params := params, first_request := now, last_request := now,
                error := "An error occurred during HTTP request: " ++ statusErrorText r.status
                  ++ " received from " ++ url }
              st.bad_request_cache) }) := by
    rw [fetch_miss st url params fr false now (.resp r) (Or.inr hs),
      try_fetch_nobad st (cacheKey url params) url params false now (.resp r) (Or.inr hb)]
    simp [try_net, hst, except_dispatch, handle_error_and_cache, hb, afterHandle]
  refine ⟨by rw [run], ?_, ?_⟩
  · rw [run]
    simp [save_cache_to_file, alookup_aupdate_self]
  · rw [run]
    simp only [save_cache_to_file]
    exact countKey_aupdate_of_none _ _ _ hb

theorem C9_http_error_records_failure_witness :
    (fetch_with_session ⟨[], [], ([], [])⟩ "https://example.test/y" [("a", "1")]
        false false 9 (.resp ⟨500, "text/html", "oops", none⟩)).1 =
      .raised ("An error occurred during HTTP request: " ++ statusErrorText 500
        ++ " received from " ++ "https://example.test/y") ∧
    countKey (cacheKey "https://example.test/y" [("a", "1")])
        (fetch_with_session ⟨[], [], ([], [])⟩ "https://example.test/y" [("a", "1")]
          false false 9 (.resp ⟨500, "text/html", "oops", none⟩)).2.bad_request_cache = 1 := by
  have h := C9_http_error_records_failure ⟨[], [], ([], [])⟩ "https://example.test/y"
    [("a", "1")] false 9 ⟨500, "text/html", "oops", none⟩ rfl rfl (by decide)
  exact ⟨h.1, h.2.2⟩

/-- C6: for a fetch that reaches the network (no success hit, no
failure-cache hit, status below 400), the result is decided by a
case-insensitive substring match on the declared content kind: a kind
containing `text/html` with a non-empty body returns the parsed
document tree of that body and stores the raw markup string; a kind
containing `application/json` (and not `text/html`) returns the decoded
structured value directly; a `text/html` kind with an empty body raises
a request fault mentioning empty HTML content; any other kind raises a
content fault mentioning the unexpected content type. -/
theorem C6_content_dispatch (st : EngineState) (url : String)
    (params : List (String × String)) (fr : Bool) (now : Nat) (r : HttpResponse)
    (hmiss : fr = true ∨ alookup (cacheKey url params) st.successful_cache = none)
    (hb : alookup (cacheKey url params) st.bad_request_cache = none)
    (hst : r.status < 400) :
    (strContainsSub (strToLower r.contentType) "text/html" = true → r.body ≠ "" →
      fetch_with_session st url params fr false now (.resp r) =
        (.content (.doc (bsParse r.body)),
          save_cache_to_file
            { st with
              successful_cache :=
                (aupdate (cacheKey url params)
                  { url := url, params := params, first_request := now,
                    last_request := now, data := .str r.body } st.successful_cache),
              bad_request_cache :=
                (aremove (cacheKey url params) st.bad_request_cache) })) ∧
    (strContainsSub (strToLower r.contentType) "text/html" = true → r.body = "" →
      (fetch_with_session st url params fr false now (.resp r)).1 =
        .raised ("An unexpected error occurred: "
          ++ ("Empty HTML content received from " ++ url)
          ++ " received from " ++ url)) ∧
    (strContainsSub (strToLower r.contentType) "text/html" = false →
     strContainsSub (strToLower r.contentType) "application/json" = true →
     ∀ j, r.jsonBody = some j →
      fetch_with_session st url params fr false now (.resp r) =
        (.content (.structured j),
          save_cache_to_file
            { st with
              successful_cache :=
                (aupdate (cacheKey url params)
                  { url := url, params := params, first_request := now,
                    last_request := now, data := j } st.successful_cache),
              bad_request_cache :=
                (aremove (cacheKey url params) st.bad_request_cache) })) ∧
    (strContainsSub (strToLower r.contentType) "text/html" = false →
     strContainsSub (strToLower r.contentType) "application/json" = false →
      (fetch_with_session st url params fr false now (.resp r)).1 =
        .raised ("An unexpected error occurred: "
          ++ ("Unexpected content type '" ++ r.contentType ++ "' received from " ++ url)
          ++ " received from " ++ url)) := by
  have hnet : fetch_with_session st url params fr false now (.resp r) =
      except_dispatch (cacheKey url params) url params false now
        (try_net st (cacheKey url params) url params false now (.resp r)) := by
    rw [fetch_miss st url params fr false now (.resp r) hmiss,
      try_fetch_nobad st (cacheKey url params) url params false now (.resp r) (Or.inr hb)]
  have hstatus : ¬ 400 ≤ r.status := Nat.not_le.mpr hst
  refine ⟨?_, ?_, ?_, ?_⟩
  · intro hhtml hne
    rw [hnet]
    simp [try_net, hstatus, hhtml, hne, except_dispatch]
  · intro hhtml hemp
    rw [hnet]
    simp [try_net, hstatus, hhtml, hemp, except_dispatch, handle_error_and_cache,
      hb, afterHandle, save_cache_to_file, alookup_aupdate_self]
  · intro hhtml hjson j hj
    rw [hnet]
    simp [try_net, hstatus, hhtml, hjson, hj, except_dispatch]
  · intro hhtml hjson
    rw [hnet]
    simp [try_net, hstatus, hhtml, hjson, except_dispatch, handle_error_and_cache,
      hb, afterHandle, save_cache_to_file, alookup_aupdate_self]

theorem C6_content_dispatch_witness :
    fetch_with_session ⟨[], [], ([], [])⟩ "https://example.test/x" [] false false 0
        (.resp ⟨200, "Text/HTML; charset=utf-8", "<html>ok</html>", none⟩) =
      (.content (.doc (bsParse "<html>ok</html>")),
        save_cache_to_file
          ⟨aupdate (cacheKey "https://example.test/x" [])
              ⟨"https://example.test/x", [], 0, 0, .str "<html>ok</html>"⟩ [],
            aremove (cacheKey "https://example.test/x" []) [], ([], [])⟩) := by
  have h := C6_content_dispatch ⟨[], [], ([], [])⟩ "https://example.test/x" [] false 0
    ⟨200, "Text/HTML; charset=utf-8", "<html>ok</html>", none⟩ (Or.inr rfl) rfl (by decide)
  exact h.1 (by decide) (by decide)

/-! ## Inversion: what a content-returning fetch did -/

theorem except_dispatch_content (key url : String) (params : List (String × String))
    (ibr : Bool) (now : Nat) (tout : TryOutcome) (c : Content) (st' : EngineState)
    (h : except_dispatch key url params ibr now tout = (.content c, st')) :
    tout = .ret c st' := by
  cases tout with
  | ret c' st₁ =>
    simp only [except_dispatch, Prod.mk.injEq, FetchResult.content.injEq] at h
    rw [h.1, h.2]
  | fellThrough st₁ =>
    simp only [except_dispatch, Prod.mk.injEq] at h
    exact absurd h.1 (by simp)
  | clientErr m st₁ =>
    exfalso
    simp only [except_dispatch] at h
    rcases hh : handle_error_and_cache st₁ key url params
        ("An error occurred during HTTP request: " ++ m ++ " received from " ++ url)
        ibr now with ⟨o, s⟩
    rw [hh] at h
    cases o <;> simp [afterHandle] at h
  | timedOut st₁ =>
    exfalso
    simp only [except_dispatch] at h
    rcases hh : handle_error_and_cache st₁ key url params
        ("Request timed out for URL: " ++ url) ibr now with ⟨o, s⟩
    rw [hh] at h
    cases o <;> simp [afterHandle] at h
  | otherExn m st₁ =>
    exfalso
    simp only [except_dispatch] at h
    rcases hh : handle_error_and_cache st₁ key url params
        ("An unexpected error occurred: " ++ m ++ " received from " ++ url) ibr now
      with ⟨o, s⟩
    rw [hh] at h
    cases o <;> simp [afterHandle] at h

theorem try_fetch_ret_inv (st : EngineState) (key url : String)
    (params : List (String × String)) (ibr : Bool) (now : Nat) (net : NetworkOutcome)
    (c : Content) (st' : EngineState)
    (h : try_fetch st key url params ibr now net = .ret c st') :
    ∃ e : SuccessEntry,
      st' = save_cache_to_file
        { st with
          successful_cache :=
            (aupdate key e st.successful_cache),
          bad_request_cache :=
            (aremove key st.bad_request_cache) } ∧
      e.url = url ∧ e.params = params ∧
      e.first_request = now ∧ e.last_request = now ∧
      (renderStored e.data = c ∨ ∃ s, e.data = .str s ∧ c = .structured (.str s)) := by
  cases hbr : (if ibr then none else alookup key st.bad_request_cache) with
  | some f => simp [try_fetch, hbr] at h
  | none =>
    replace h : try_net st key url params ibr now net = .ret c st' := by
      rw [try_fetch, hbr] at h
      exact h
    cases net with
    | clientError m => simp [try_net] at h
    | timeout => simp [try_net] at h
    | resp r =>
      by_cases h1 : 400 ≤ r.status
      · simp [try_net, h1] at h
      by_cases h2 : strContainsSub (strToLower r.contentType) "text/html" = true
      · by_cases h3 : r.body = ""
        · exfalso
          rcases hh : handle_error_and_cache st key url params
              ("Empty HTML content received from " ++ url) ibr now with ⟨o, s⟩
          rw [try_net] at h
          simp only [if_neg h1, h2, if_pos rfl, h3] at h
          simp only [if_true] at h
          rw [hh] at h
          cases o <;> simp at h
        · rw [try_net] at h
          simp only [if_neg h1, h2, if_true, h3, if_false, ite_not] at h
          simp only [TryOutcome.ret.injEq] at h
          refine ⟨⟨url, params, now, now, .str r.body⟩, ?_, rfl, rfl, rfl, rfl, ?_⟩
          · rw [← h.2]
          · left
            rw [← h.1]
            rfl
      by_cases h4 : strContainsSub (strToLower r.contentType) "application/json" = true
      · cases hj : r.jsonBody with
        | none =>
          rw [try_net] at h
          simp [h1, h2, h4, hj] at h
        | some j =>
          rw [try_net] at h
          simp only [if_neg h1, h2, h4, if_true, if_false, hj] at h
          simp only [Bool.false_eq_true, if_false] at h
          simp only [TryOutcome.ret.injEq] at h
          refine ⟨⟨url, params, now, now, j⟩, ?_, rfl, rfl, rfl, rfl, ?_⟩
          · rw [← h.2]
          · cases j with
            | str s => exact Or.inr ⟨s, rfl, by rw [← h.1]⟩
            | null => left; rw [← h.1]; rfl
            | bool b => left; rw [← h.1]; rfl
            | int n => left; rw [← h.1]; rfl
            | list xs => left; rw [← h.1]; rfl
            | dict fs => left; rw [← h.1]; rfl
      · exfalso
        rcases hh : handle_error_and_cache st key url params
            ("Unexpected content type '" ++ r.contentType ++ "' received from " ++ url)
            ibr now with ⟨o, s⟩
        rw [try_net] at h
        simp only [if_neg h1, h2, h4] at h
        simp only [Bool.false_eq_true, if_false] at h
        rw [hh] at h
        cases o <;> simp at h

theorem fetch_content_inv (st : EngineState) (url : String)
    (params : List (String × String)) (fr ibr : Bool) (now : Nat)
    (net : NetworkOutcome) (c : Content) (st' : EngineState)
    (hmiss : fr = true ∨ alookup (cacheKey url params) st.successful_cache = none)
    (h : fetch_with_session st url params fr ibr now net = (.content c, st')) :
    try_fetch st (cacheKey url params) url params ibr now net = .ret c st' := by
  rw [fetch_miss st url params fr ibr now net hmiss] at h
  exact except_dispatch_content _ _ _ _ _ _ _ _ h

/-- A network fetch of an HTML response with a non-empty body: the full
run equation. -/
theorem html_success_run (st : EngineState) (url : String)
    (params : List (String × String)) (fr ibr : Bool) (now : Nat) (r : HttpResponse)
    (hmiss : fr = true ∨ alookup (cacheKey url params) st.successful_cache = none)
    (hnb : ibr = true ∨ alookup (cacheKey url params) st.bad_request_cache = none)
    (hst : ¬ 400 ≤ r.status)
    (hhtml : strContainsSub (strToLower r.contentType) "text/html" = true)
    (hne : ¬ r.body = "") :
    fetch_with_session st url params fr ibr now (.resp r) =
      (.content (.doc (bsParse r.body)),
        save_cache_to_file
          { st with
            successful_cache :=
              (aupdate (cacheKey url params) ⟨url, params, now, now, .str r.body⟩
                st.successful_cache),
            bad_request_cache :=
              (aremove (cacheKey url params) st.bad_request_cache) }) := by
  rw [fetch_miss st url params fr ibr now (.resp r) hmiss,
    try_fetch_nobad st (cacheKey url params) url params ibr now (.resp r) hnb]
  simp [try_net, hst, hhtml, hne, except_dispatch]

/-- A network fetch of a JSON response that decodes: the full run
equation. -/
theorem json_success_run (st : EngineState) (url : String)
    (params : List (String × String)) (fr ibr : Bool) (now : Nat) (r : HttpResponse)
    (j : PyVal)
    (hmiss : fr = true ∨ alookup (cacheKey url params) st.successful_cache = none)
    (hnb : ibr = true ∨ alookup (cacheKey url params) st.bad_request_cache = none)
    (hst : ¬ 400 ≤ r.status)
    (hhtml : strContainsSub (strToLower r.contentType) "text/html" = false)
    (hjson : strContainsSub (strToLower r.contentType) "application/json" = true)
    (hj : r.jsonBody = some j) :
    fetch_with_session st url params fr ibr now (.resp r) =
      (.content (.structured j),
        save_cache_to_file
          { st with
            successful_cache :=
              (aupdate (cacheKey url params) ⟨url, params, now, now, j⟩
                st.successful_cache),
            bad_request_cache :=
              (aremove (cacheKey url params) st.bad_request_cache) }) := by
  rw [fetch_miss st url params fr ibr now (.resp r) hmiss,
    try_fetch_nobad st (cacheKey url params) url params ibr now (.resp r) hnb]
  simp [try_net, hst, hhtml, hjson, hj, except_dispatch]

/-- C1 (amended): a fetch that consults the network and returns content
(a successful fetch) leaves its key present in `successes` and absent
from `failures` — a success removes any prior failure entry for the
key.  The original never-in-both invariant is refuted by
`C1_counterexample`: a failed fetch does not remove an existing success
entry, so after a failed forced refresh of a previously-successful key
the key sits in both tables. -/
theorem C1_success_supersedes_failure (st : EngineState) (url : String)
    (params : List (String × String)) (fr ibr : Bool) (now : Nat)
    (net : NetworkOutcome) (c : Content) (st' : EngineState)
    (hmiss : fr = true ∨ alookup (cacheKey url params) st.successful_cache = none)
    (h : fetch_with_session st url params fr ibr now net = (.content c, st')) :
    (alookup (cacheKey url params) st'.successful_cache).isSome = true ∧
    alookup (cacheKey url params) st'.bad_request_cache = none := by
  obtain ⟨e, hst', -, -, -, -, -⟩ :=
    try_fetch_ret_inv st (cacheKey url params) url params ibr now net c st'
      (fetch_content_inv st url params fr ibr now net c st' hmiss h)
  subst hst'
  constructor
  · simp [save_cache_to_file, alookup_aupdate_self]
  · simp [save_cache_to_file, alookup_aremove_self]

theorem C1_success_supersedes_failure_witness :
    ((alookup (cacheKey "u" [])
        (save_cache_to_file
          { successful_cache :=
              (aupdate (cacheKey "u" [])
                ⟨"u", [], 3, 3, .str "<p>x</p>"⟩ []),
            bad_request_cache :=
              (aremove (cacheKey "u" [])
                [(cacheKey "u" [], ⟨"u", [], 0, 0, "old failure"⟩)]),
            file := ([], []) }).successful_cache).isSome = true) ∧
    alookup (cacheKey "u" [])
        (save_cache_to_file
          { successful_cache :=
              (aupdate (cacheKey "u" [])
                ⟨"u", [], 3, 3, .str "<p>x</p>"⟩ []),
            bad_request_cache :=
              (aremove (cacheKey "u" [])
                [(cacheKey "u" [], ⟨"u", [], 0, 0, "old failure"⟩)]),
            file := ([], []) }).bad_request_cache = none :=
  C1_success_supersedes_failure
    ⟨[], [(cacheKey "u" [], ⟨"u", [], 0, 0, "old failure"⟩)], ([], [])⟩
    "u" [] false true 3 (.resp ⟨200, "text/html", "<p>x</p>", none⟩)
    (.doc (bsParse "<p>x</p>")) _
    (Or.inr rfl)
    (html_success_run
      ⟨[], [(cacheKey "u" [], ⟨"u", [], 0, 0, "old failure"⟩)], ([], [])⟩
      "u" [] false true 3 ⟨200, "text/html", "<p>x</p>", none⟩
      (Or.inr rfl) (Or.inl rfl) (by decide) (by decide) (by decide))

/-- C1 is refuted as a general invariant: starting from an empty store,
a successful HTML fetch of a key followed by a failed forced refresh
(HTTP 500) of the same key leaves the key present in both the successes
and the failures table at once. -/
theorem C1_counterexample :
    ((alookup (cacheKey "u" [])
        (fetch_with_session
          (fetch_with_session ⟨[], [], ([], [])⟩ "u" [] false false 0
            (.resp ⟨200, "text/html", "<p>x</p>", none⟩)).2
          "u" [] true false 1 (.resp ⟨500, "text/html", "", none⟩)).2.successful_cache).isSome
      = true) ∧
    ((alookup (cacheKey "u" [])
        (fetch_with_session
          (fetch_with_session ⟨[], [], ([], [])⟩ "u" [] false false 0
            (.resp ⟨200, "text/html", "<p>x</p>", none⟩)).2
          "u" [] true false 1 (.resp ⟨500, "text/html", "", none⟩)).2.bad_request_cache).isSome
      = true) :=
  ⟨rfl, rfl⟩

/-- C3 (amended): a later successful fetch of a key already in the
successes table (e.g. a forced refresh) overwrites the entry wholesale:
`data`, `last_request` and also `first_request` are all set afresh —
`first_request` becomes the time of the new fetch rather than staying
the timestamp of the first success, as `C3_counterexample` shows. -/
theorem C3_refresh_overwrites_first_request (st : EngineState) (url : String)
    (params : List (String × String)) (ibr : Bool) (now : Nat)
    (net : NetworkOutcome) (c : Content) (st' : EngineState) (e₀ : SuccessEntry)
    (hprev : alookup (cacheKey url params) st.successful_cache = some e₀)
    (h : fetch_with_session st url params true ibr now net = (.content c, st')) :
    ∃ e, alookup (cacheKey url params) st'.successful_cache = some e ∧
      e.url = url ∧ e.params = params ∧
      e.first_request = now ∧ e.last_request = now ∧
      (renderStored e.data = c ∨ ∃ s, e.data = .str s ∧ c = .structured (.str s)) := by
  obtain ⟨e, hst', h1, h2, h3, h4, h5⟩ :=
    try_fetch_ret_inv st (cacheKey url params) url params ibr now net c st'
      (fetch_content_inv st url params true ibr now net c st' (Or.inl rfl) h)
  subst hst'
  exact ⟨e, by simp [save_cache_to_file, alookup_aupdate_self], h1, h2, h3, h4, h5⟩

theorem C3_refresh_overwrites_first_request_witness :
    ∃ e, alookup (cacheKey "u" [])
        (save_cache_to_file
          { successful_cache :=
              (aupdate (cacheKey "u" []) ⟨"u", [], 5, 5, .str "<b>"⟩
                [(cacheKey "u" [], ⟨"u", [], 0, 0, PyVal.str "<a>"⟩)]),
            bad_request_cache :=
              (aremove (cacheKey "u" []) ([] : List (String × FailureEntry))),
            file := ([], []) }).successful_cache = some e ∧
      e.url = "u" ∧ e.params = [] ∧
      e.first_request = 5 ∧ e.last_request = 5 ∧
      (renderStored e.data = .doc (bsParse "<b>") ∨
        ∃ s, e.data = .str s ∧ Content.doc (bsParse "<b>") = .structured (.str s)) :=
  C3_refresh_overwrites_first_request
    ⟨[(cacheKey "u" [], ⟨"u", [], 0, 0, PyVal.str "<a>"⟩)], [], ([], [])⟩
    "u" [] false 5 (.resp ⟨200, "text/html", "<b>", none⟩)
    (.doc (bsParse "<b>")) _ ⟨"u", [], 0, 0, PyVal.str "<a>"⟩
    rfl
    (html_success_run
      ⟨[(cacheKey "u" [], ⟨"u", [], 0, 0, PyVal.str "<a>"⟩)], [], ([], [])⟩
      "u" [] true false 5 ⟨200, "text/html", "<b>", none⟩
      (Or.inl rfl) (Or.inr rfl) (by decide) (by decide) (by decide))

/-- C3 is refuted as stated: after an initial success at time 0 the
entry's `first_request` is 0, but a later forced-refresh success at
time 5 rewrites `first_request` to 5 — it does not stay the timestamp
of the first success. -/
theorem C3_counterexample :
    ((alookup (cacheKey "u" [])
        (fetch_with_session ⟨[], [], ([], [])⟩ "u" [] false false 0
          (.resp ⟨200, "text/html", "<a>", none⟩)).2.successful_cache).map
      (fun e => e.first_request) = some 0) ∧
    ((alookup (cacheKey "u" [])
        (fetch_with_session
          (fetch_with_session ⟨[], [], ([], [])⟩ "u" [] false false 0
            (.resp ⟨200, "text/html", "<a>", none⟩)).2
          "u" [] true false 5 (.resp ⟨200, "text/html", "<b>", none⟩)).2.successful_cache).map
      (fun e => e.first_request) = some 5) :=
  ⟨rfl, rfl⟩

theorem save_file_current (X : EngineState) :
    (save_cache_to_file X).file =
      ((save_cache_to_file X).successful_cache,
       (save_cache_to_file X).bad_request_cache) := rfl

theorem dispatch_net_persist (st : EngineState) (key url : String)
    (params : List (String × String)) (ibr : Bool) (now : Nat) (net : NetworkOutcome) :
    (except_dispatch key url params ibr now (try_net st key url params ibr now net)).2 = st ∨
    (except_dispatch key url params ibr now (try_net st key url params ibr now net)).2.file =
      ((except_dispatch key url params ibr now
          (try_net st key url params ibr now net)).2.successful_cache,
       (except_dispatch key url params ibr now
          (try_net st key url params ibr now net)).2.bad_request_cache) := by
  cases net with
  | clientError m =>
    cases ibr
    · right
      simp [try_net, except_dispatch, handle_error_and_cache, afterHandle, save_cache_to_file]
    · left
      simp [try_net, except_dispatch, handle_error_and_cache, afterHandle]
  | timeout =>
    cases ibr
    · right
      simp [try_net, except_dispatch, handle_error_and_cache, afterHandle, save_cache_to_file]
    · left
      simp [try_net, except_dispatch, handle_error_and_cache, afterHandle]
  | resp r =>
    by_cases h1 : 400 ≤ r.status
    · cases ibr
      · right
        simp [try_net, h1, except_dispatch, handle_error_and_cache, afterHandle,
          save_cache_to_file]
      · left
        simp [try_net, h1, except_dispatch, handle_error_and_cache, afterHandle]
    by_cases h2 : strContainsSub (strToLower r.contentType) "text/html" = true
    · by_cases h3 : r.body = ""
      · cases ibr
        · right
          simp [try_net, h1, h2, h3, except_dispatch, handle_error_and_cache,
            afterHandle, save_cache_to_file, alookup_aupdate_self]
        · left
          simp [try_net, h1, h2, h3, except_dispatch, handle_error_and_cache, afterHandle]
      · right
        simp [try_net, h1, h2, h3, except_dispatch, save_cache_to_file]
    by_cases h4 : strContainsSub (strToLower r.contentType) "application/json" = true
    · cases hj : r.jsonBody with
      | none =>
        cases ibr
        · right
          simp [try_net, h1, h2, h4, hj, except_dispatch, handle_error_and_cache,
            afterHandle, save_cache_to_file]
        · left
          simp [try_net, h1, h2, h4, hj, except_dispatch, handle_error_and_cache,
            afterHandle]
      | some j =>
        right
        simp [try_net, h1, h2, h4, hj, except_dispatch, save_cache_to_file]
    · cases ibr
      · right
        simp [try_net, h1, h2, h4, except_dispatch, handle_error_and_cache,
          afterHandle, save_cache_to_file, alookup_aupdate_self]
      · left
        simp [try_net, h1, h2, h4, except_dispatch, handle_error_and_cache, afterHandle]

/-- C4 (amended): every fetch that is not a pure success-cache read
either leaves the state entirely unchanged (suppressed failure with the
failure cache ignored) or ends with the backing file holding exactly
the current two tables — i.e., every mutation on these paths is
followed by a full rewrite of the store.  The original claim, that the
`last_request` refresh of a success-cache *read* is also persisted, is
refuted by `C4_counterexample`: that refresh mutates only memory. -/
theorem C4_persist_after_mutation (st : EngineState) (url : String)
    (params : List (String × String)) (fr ibr : Bool) (now : Nat)
    (net : NetworkOutcome)
    (hmiss : fr = true ∨ alookup (cacheKey url params) st.successful_cache = none) :
    (fetch_with_session st url params fr ibr now net).2 = st ∨
    (fetch_with_session st url params fr ibr now net).2.file =
      ((fetch_with_session st url params fr ibr now net).2.successful_cache,
       (fetch_with_session st url params fr ibr now net).2.bad_request_cache) := by
  rw [fetch_miss st url params fr ibr now net hmiss]
  cases ibr with
  | false =>
    cases hbf : alookup (cacheKey url params) st.bad_request_cache with
    | some f =>
      rw [try_fetch_prevfail st (cacheKey url params) url params now net f hbf]
      right
      simp [except_dispatch, handle_error_and_cache, afterHandle, save_cache_to_file,
        alookup_aupdate_self]
    | none =>
      rw [try_fetch_nobad st (cacheKey url params) url params false now net (Or.inr hbf)]
      exact dispatch_net_persist st (cacheKey url params) url params false now net
  | true =>
    rw [try_fetch_nobad st (cacheKey url params) url params true now net (Or.inl rfl)]
    exact dispatch_net_persist st (cacheKey url params) url params true now net

theorem C4_persist_after_mutation_witness :
    (fetch_with_session ⟨[], [], ([], [])⟩ "u" [] false false 0 .timeout).2 =
      (⟨[], [], ([], [])⟩ : EngineState) ∨
    (fetch_with_session ⟨[], [], ([], [])⟩ "u" [] false false 0 .timeout).2.file =
      ((fetch_with_session ⟨[], [], ([], [])⟩ "u" [] false false 0 .timeout).2.successful_cache,
       (fetch_with_session ⟨[], [], ([], [])⟩ "u" [] false false 0 .timeout).2.bad_request_cache) :=
  C4_persist_after_mutation ⟨[], [], ([], [])⟩ "u" [] false false 0 .timeout (Or.inr rfl)

/-- C4 is refuted as stated: after a success at time 0 (persisted), a
success-cache read at time 5 bumps the entry's `last_request` to 5 in
memory, but the backing file is untouched and still holds
`last_request` 0 — the mutation performed by the read is not followed
by a rewrite of the file. -/
theorem C4_counterexample :
    ((alookup (cacheKey "u" [])
        (fetch_with_session
          (fetch_with_session ⟨[], [], ([], [])⟩ "u" [] false false 0
            (.resp ⟨200, "text/html", "<p>", none⟩)).2
          "u" [] false false 5 .timeout).2.successful_cache).map
      (fun e => e.last_request) = some 5) ∧
    ((fetch_with_session
        (fetch_with_session ⟨[], [], ([], [])⟩ "u" [] false false 0
          (.resp ⟨200, "text/html", "<p>", none⟩)).2
        "u" [] false false 5 .timeout).2.file =
      (fetch_with_session ⟨[], [], ([], [])⟩ "u" [] false false 0
        (.resp ⟨200, "text/html", "<p>", none⟩)).2.file) ∧
    ((alookup (cacheKey "u" [])
        (fetch_with_session
          (fetch_with_session ⟨[], [], ([], [])⟩ "u" [] false false 0
            (.resp ⟨200, "text/html", "<p>", none⟩)).2
          "u" [] false false 5 .timeout).2.file.1).map
      (fun e => e.last_request) = some 0) :=
  ⟨rfl, rfl, rfl⟩

/-- C2 (amended): repeating an identical fetch that previously returned
content, with `forceRefresh` false, issues no network request (the
outcome is the same for every oracle), changes nothing in the store
except the entry's `last_request` (in particular the backing file is
untouched), and returns the stored data re-rendered: a stored markup
string is re-parsed into a document tree, and a stored non-string
structured value is returned as is — so the repeat returns the same
parsed data *except* when the first call was a JSON response that
decoded to a bare string, which the read re-parses as markup
(`C2_counterexample`). -/
theorem C2_repeat_success (st : EngineState) (url : String)
    (params : List (String × String)) (fr ibr : Bool) (now₀ : Nat)
    (net : NetworkOutcome) (c : Content) (st₁ : EngineState)
    (h : fetch_with_session st url params fr ibr now₀ net = (.content c, st₁)) :
    ∃ e, alookup (cacheKey url params) st₁.successful_cache = some e ∧
      (∀ (ibr' : Bool) (now₁ : Nat) (net' : NetworkOutcome),
        fetch_with_session st₁ url params false ibr' now₁ net' =
          (.content (renderStored e.data),
            { st₁ with successful_cache :=
              (aupdate (cacheKey url params) { e with last_request := now₁ }
                st₁.successful_cache) })) ∧
      (renderStored e.data = c ∨ ∃ s, e.data = .str s ∧ c = .structured (.str s)) := by
  cases hls : (if fr then none else alookup (cacheKey url params) st.successful_cache) with
  | some e₀ =>
    have hr : fetch_with_session st url params fr ibr now₀ net =
        (.content (renderStored { e₀ with last_request := now₀ }.data),
          { st with successful_cache :=
            (aupdate (cacheKey url params) { e₀ with last_request := now₀ }
              st.successful_cache) }) := by
      simp [fetch_with_session, hls]
    have hcomb := hr.symm.trans h
    simp only [Prod.mk.injEq] at hcomb
    obtain ⟨hc, hs⟩ := hcomb
    replace hc := FetchResult.content.inj hc
    refine ⟨{ e₀ with last_request := now₀ }, ?_, ?_, ?_⟩
    · rw [← hs]
      simp [alookup_aupdate_self]
    · intro ibr' now₁ net'
      rw [← hs]
      exact fetch_hit _ url params ibr' now₁ net' _ (alookup_aupdate_self _ _ _)
    · left
      exact hc
  | none =>
    have hmiss : fr = true ∨ alookup (cacheKey url params) st.successful_cache = none := by
      cases fr
      · exact Or.inr (by simpa using hls)
      · exact Or.inl rfl
    obtain ⟨e, hst', -, -, -, -, h5⟩ :=
      try_fetch_ret_inv st (cacheKey url params) url params ibr now₀ net c st₁
        (fetch_content_inv st url params fr ibr now₀ net c st₁ hmiss h)
    subst hst'
    refine ⟨e, by simp [save_cache_to_file, alookup_aupdate_self], ?_, h5⟩
    intro ibr' now₁ net'
    exact fetch_hit _ url params ibr' now₁ net' _
      (by simp [save_cache_to_file, alookup_aupdate_self])

theorem C2_repeat_success_witness :
    ∃ e, alookup (cacheKey "u" [])
        (save_cache_to_file
          { successful_cache :=
              (aupdate (cacheKey "u" []) ⟨"u", [], 0, 0, .str "<p>"⟩
                ([] : List (String × SuccessEntry))),
            bad_request_cache :=
              (aremove (cacheKey "u" []) ([] : List (String × FailureEntry))),
            file := ([], []) }).successful_cache = some e ∧
      (∀ (ibr' : Bool) (now₁ : Nat) (net' : NetworkOutcome),
        fetch_with_session
            (save_cache_to_file
              { successful_cache :=
                  (aupdate (cacheKey "u" []) ⟨"u", [], 0, 0, .str "<p>"⟩
                    ([] : List (String × SuccessEntry))),
                bad_request_cache :=
                  (aremove (cacheKey "u" []) ([] : List (String × FailureEntry))),
                file := ([], []) })
            "u" [] false ibr' now₁ net' =
          (.content (renderStored e.data),
            { (save_cache_to_file
                { successful_cache :=
                    (aupdate (cacheKey "u" []) ⟨"u", [], 0, 0, .str "<p>"⟩
                      ([] : List (String × SuccessEntry))),
                  bad_request_cache :=
                    (aremove (cacheKey "u" []) ([] : List (String × FailureEntry))),
                  file := ([], []) }) with
              successful_cache :=
                (aupdate (cacheKey "u" []) { e with last_request := now₁ }
                  (save_cache_to_file
                    { successful_cache :=
                        (aupdate (cacheKey "u" []) ⟨"u", [], 0, 0, .str "<p>"⟩
                          ([] : List (String × SuccessEntry))),
                      bad_request_cache :=
                        (aremove (cacheKey "u" []) ([] : List (String × FailureEntry))),
                      file := ([], []) }).successful_cache) })) ∧
      (renderStored e.data = .doc (bsParse "<p>") ∨
        ∃ s, e.data = .str s ∧ Content.doc (bsParse "<p>") = .structured (.str s)) :=
  C2_repeat_success ⟨[], [], ([], [])⟩ "u" [] false false 0
    (.resp ⟨200, "text/html", "<p>", none⟩) (.doc (bsParse "<p>")) _
    (html_success_run ⟨[], [], ([], [])⟩ "u" [] false false 0
      ⟨200, "text/html", "<p>", none⟩
      (Or.inr rfl) (Or.inr rfl) (by decide) (by decide) (by decide))

/-- C2 is refuted as stated for JSON responses that decode to a bare
string: the first call returns the decoded string value directly, but
the cached repeat re-parses the stored string as markup (the code keys
on `isinstance(entry['data'], str)`), so the repeat does not return the
same parsed data. -/
theorem C2_counterexample :
    (fetch_with_session ⟨[], [], ([], [])⟩ "u" [] false false 0
        (.resp ⟨200, "application/json", "\"hello\"", some (.str "hello")⟩)).1 =
      .content (.structured (.str "hello")) ∧
    (fetch_with_session
        (fetch_with_session ⟨[], [], ([], [])⟩ "u" [] false false 0
          (.resp ⟨200, "application/json", "\"hello\"", some (.str "hello")⟩)).2
        "u" [] false false 1 .timeout).1 =
      .content (.doc (bsParse "hello")) ∧
    (fetch_with_session
        (fetch_with_session ⟨[], [], ([], [])⟩ "u" [] false false 0
          (.resp ⟨200, "application/json", "\"hello\"", some (.str "hello")⟩)).2
        "u" [] false false 1 .timeout).1 ≠
      (fetch_with_session ⟨[], [], ([], [])⟩ "u" [] false false 0
        (.resp ⟨200, "application/json", "\"hello\"", some (.str "hello")⟩)).1 := by
  refine ⟨rfl, rfl, ?_⟩
  show FetchResult.content (.doc (bsParse "hello")) ≠
    FetchResult.content (.structured (.str "hello"))
  intro hcontra
  exact Content.noConfusion (FetchResult.content.inj hcontra)

theorem C8_ignore_failure_cache_witness :
    (fetch_with_session ⟨[], [(cacheKey "u" [], ⟨"u", [], 0, 0, "boom"⟩)], ([], [])⟩
        "u" [] false true 2 (.resp ⟨500, "text/html", "", none⟩)).1 = .noneResult ∧
    (fetch_with_session ⟨[], [(cacheKey "u" [], ⟨"u", [], 0, 0, "boom"⟩)], ([], [])⟩
        "u" [] false true 2 (.resp ⟨500, "text/html", "", none⟩)).2 =
      (⟨[], [(cacheKey "u" [], ⟨"u", [], 0, 0, "boom"⟩)], ([], [])⟩ : EngineState) :=
  ⟨rfl,
    (C8_ignore_failure_cache ⟨[], [(cacheKey "u" [], ⟨"u", [], 0, 0, "boom"⟩)], ([], [])⟩
      "u" [] false 2 (.resp ⟨500, "text/html", "", none⟩)).2 rfl⟩
